import Mathlib

/-!
# Verification of the cart_opt_ctrl core components

Shallow embedding of the two real-time components of the repository:

* `src/compute_traj_comp.cpp` (`KDLTrajCompute`): waypoint filtering,
  trajectory construction and periodic sampling;
* `src/cart_opt_ctrl.cpp` (`CartOptCtrl`): per-period Cartesian optimization
  controller (error computation, dynamics linearization, QP construction,
  warm-started solving, fail-safe torque fallback).

Real-valued quantities are embedded over `ℚ` so that every definition is
executable and concrete instances can be settled by `decide`.  External
collaborators (the KDL frame/path library, the kinematic/dynamic model, the
qpOASES solver, the middleware scheduler and transport) are out of scope per
the design document; where a claim depends on their behaviour they are
modelled from the specification, each such definition carrying a doc comment
starting with "Modelled from the spec:".
-/

attribute [local semireducible] Rat.add Rat.mul Rat.sub Rat.inv Rat.ofScientific

/-! ## Basic geometry -/

/-- A 3-vector of rational coordinates. -/
abbrev Vec3 := Fin 3 → ℚ

/-- A 3×3 rational matrix, used for rotation parts of frames. -/
abbrev Rot33 := Fin 3 → Fin 3 → ℚ

/-- Transpose of a 3×3 matrix (KDL `Rotation::Inverse` for a rotation). -/
def rotT (R : Rot33) : Rot33 := fun i j => R j i

/-- Product of two 3×3 matrices, written with explicit sums. -/
def rotMul (A B : Rot33) : Rot33 :=
  fun i j => A i 0 * B 0 j + A i 1 * B 1 j + A i 2 * B 2 j

/-- Matrix–vector product for a 3×3 matrix. -/
def rotMulVec (R : Rot33) (v : Vec3) : Vec3 :=
  fun i => R i 0 * v 0 + R i 1 * v 1 + R i 2 * v 2

/-- The 3×3 identity matrix. -/
def rotOne : Rot33 := fun i j => if i = j then 1 else 0

/-- The vee map: the 3-vector extracted from the skew-symmetric part of a
3×3 matrix. -/
def vex (M : Rot33) : Vec3 :=
  ![(M 2 1 - M 1 2) / 2, (M 0 2 - M 2 0) / 2, (M 1 0 - M 0 1) / 2]

/-- A KDL twist: linear (`vel`) and angular (`rot`) 3-vectors.  Components
0–2 of the C++ `KDL::Twist` are `vel`, components 3–5 are `rot`. -/
structure Twist where
  vel : Vec3
  rot : Vec3
deriving DecidableEq

/-- The zero twist (`KDL::SetToZero`). -/
def zeroTwist : Twist := ⟨fun _ => 0, fun _ => 0⟩

/-- A KDL frame: position vector `p` and rotation matrix `M`. -/
structure Frame where
  p : Vec3
  M : Rot33
deriving DecidableEq

/-- Modelled from the spec: the rotational components of the twist-style pose
error between two rotations.  The KDL frame library is external to this
repository; following KDL's `diff(R1,R2) = R1 * (R1⁻¹·R2).GetRot()` shape, the
axis–angle extraction `GetRot` is represented by the vee of the skew-symmetric
part of the relative rotation, which vanishes iff the two (orthonormal)
rotations agree and whose components grow with the relative angle. -/
def rotDiff (R1 R2 : Rot33) : Vec3 :=
  rotMulVec R1 (vex (rotMul (rotT R1) R2))

/-- Modelled from the spec: the twist-style pose difference `diff(F1, F2)` of
the external KDL frame library — translational part `F2.p - F1.p`, rotational
part `rotDiff F1.M F2.M`. -/
def frameDiff (F1 F2 : Frame) : Twist :=
  ⟨fun i => F2.p i - F1.p i, rotDiff F1.M F2.M⟩

/-- The twist difference `diff(t1, t2) = t2 - t1` of the KDL library,
componentwise on a twist. -/
def twistDiff (t1 t2 : Twist) : Twist :=
  ⟨t2.vel - t1.vel, t2.rot - t1.rot⟩

/-! ## Trajectory generator (`KDLTrajCompute`, compute_traj_comp.cpp) -/

/-- Configuration of the trajectory generator (properties of the component). -/
structure GenCfg where
  vel_max : ℚ
  acc_max : ℚ
  radius : ℚ
  eqradius : ℚ

/-- One step of the waypoint-filtering loop of
`KDLTrajCompute::computeTrajectory` (lines 124–136): starting from the last
kept frame `prev`, a frame `f` is skipped exactly when the three translational
components of `diff(f, prev)` are each below `0.01` in absolute value
(components 3–5, the rotational ones, are not examined by the code). -/
def filterAux (prev : Frame) : List Frame → List Frame
  | [] => []
  | f :: rest =>
      if |(frameDiff f prev).vel 0| < 1/100 ∧ |(frameDiff f prev).vel 1| < 1/100 ∧
          |(frameDiff f prev).vel 2| < 1/100 then
        filterAux prev rest
      else
        f :: filterAux f rest

/-- The full waypoint filter: the first waypoint is always kept (the skip test
only runs for `i > 0`), and each later waypoint is compared against the most
recently kept one (`previous_frame` is only updated on `push_back`). -/
def filterWaypoints : List Frame → List Frame
  | [] => []
  | f :: rest => f :: filterAux f rest

/-- Modelled from the spec: the motion time of the external KDL
`VelocityProfile_Trap(vel_max, acc_max)` over a path of length `L` —
acceleration to cruise in `vel_max/acc_max`, the spec's §8 scenario giving
`L/vel_max + vel_max/acc_max` total (e.g. `0.5/0.1 + 0.1/2.0 = 5.05`). -/
def trapTime (vmax amax L : ℚ) : ℚ := L / vmax + vmax / amax

/-- A segment of the composite trajectory `ctraject_`:
`motion` is a `Trajectory_Segment` over the rounded path through the kept
waypoints (path length `len`, duration `dur`); `point` is a
`Trajectory_Segment` over a `Path_Point` whose trapezoidal profile was never
given a path (duration 0); `stationary` is a `Trajectory_Stationary`. -/
inductive Seg where
  | motion (kept : List Frame) (len : ℚ) (dur : ℚ)
  | point (pose : Frame) (dur : ℚ)
  | stationary (dur : ℚ) (pose : Frame)
deriving DecidableEq

/-- Duration of one trajectory segment. -/
def Seg.dur : Seg → ℚ
  | .motion _ _ d => d
  | .point _ d => d
  | .stationary d _ => d

/-- Duration of a composite trajectory (KDL `Trajectory_Composite::Duration`:
the sum of its segments' durations). -/
def trajDuration (t : List Seg) : ℚ := (t.map Seg.dur).sum

/-- `KDLTrajCompute::computeTrajectory` (lines 116–170).  The input waypoints
have already been transformed to the base frame.  `L` is the length reported
by the external KDL rounded path through the kept waypoints, and `junk` is the
(uninitialized) value of the local C++ variable `frame` before the loop: after
the loop `frame` holds the pose of the *last input waypoint* — it is assigned
on every iteration, including skipped ones — or `junk` when the input list is
empty.  If more than one waypoint survives filtering, a rounded-path motion
segment is built; otherwise a `Path_Point` segment at `frame`.  A 0.5 s
`Trajectory_Stationary` at `frame` is appended in both cases.  Modelled from
the spec: geometric construction failures of the external KDL path library
are not modelled, so construction always takes its success path here. -/
def computeTrajectory (cfg : GenCfg) (wps : List Frame) (L : ℚ) (junk : Frame) :
    List Seg :=
  let kept := filterWaypoints wps
  let lastF := (wps.getLast?).getD junk
  if 1 < kept.length then
    [Seg.motion kept L (trapTime cfg.vel_max cfg.acc_max L),
     Seg.stationary (1/2) lastF]
  else
    [Seg.point lastF 0, Seg.stationary (1/2) lastF]

/-- State of the trajectory generator: whether a trajectory is executing,
the elapsed-time cursor, and the current composite trajectory. -/
structure GenState where
  traj_computed : Bool
  current_traj_time : ℚ
  ctraject : List Seg

/-- The body of `KDLTrajCompute::updateWaypoints` up to the service response
(lines 60–63): rebuild the trajectory, reset the elapsed-time cursor to 0 and
mark the trajectory computed.  The tf pre-transform of the request (external
frame-transform service) and the blocking completion wait that follows
(lines 65–77, a concurrent polling loop) are outside this sequential model;
in this embedding construction always succeeds, so the stored flag and the
response are `true`.  The previous generator state is fully overwritten. -/
def updateWaypointsStep (cfg : GenCfg) (wps : List Frame) (L : ℚ) (junk : Frame) :
    GenState × Bool :=
  ({ traj_computed := true, current_traj_time := 0,
     ctraject := computeTrajectory cfg wps L junk }, true)

/-- `KDLTrajCompute::updateHook` (lines 93–114).  `period` is the component
period (`getPeriod()`).  While a trajectory is executing and the cursor is
below its duration, one trajectory point is sampled at the cursor time and
emitted (returned as `some` of the sample time), and the cursor advances by
one period; once the cursor reaches the duration, the generator goes idle and
the cursor resets to 0 with no emission. -/
def genTick (period : ℚ) (s : GenState) : GenState × Option ℚ :=
  if s.traj_computed then
    if s.current_traj_time < trajDuration s.ctraject then
      ({ s with current_traj_time := s.current_traj_time + period },
       some s.current_traj_time)
    else
      ({ s with traj_computed := false, current_traj_time := 0 }, none)
  else
    (s, none)

/-! ### Concrete frames used as test inputs -/

/-- The identity frame at the origin. -/
def frameO : Frame := ⟨fun _ => 0, rotOne⟩

/-- The identity-rotation frame translated by `0.005` along x: within the
`0.01` filtering tolerance of `frameO` on every translational axis. -/
def frameNearO : Frame := ⟨![1/200, 0, 0], rotOne⟩

/-- A frame at the origin rotated about z by the Pythagorean angle with
`cos = 3/5`, `sin = 4/5`: translationally identical to `frameO` but
rotationally far from it. -/
def frameRotZ : Frame :=
  ⟨fun _ => 0, ![![3/5, -4/5, 0], ![4/5, 3/5, 0], ![0, 0, 1]]⟩

/-- The identity-rotation frame translated by `1` along x. -/
def frameX1 : Frame := ⟨![1, 0, 0], rotOne⟩

/-- The identity-rotation frame translated by `1.005` along x: within the
filtering tolerance of `frameX1`. -/
def frameNearX1 : Frame := ⟨![1 + 1/200, 0, 0], rotOne⟩

/-- A representative generator configuration (the component defaults:
`vel_max = 0.1`, `acc_max = 2.0`, `radius = 0.01`, `eqradius = 0.05`). -/
def genCfg0 : GenCfg := ⟨1/10, 2, 1/100, 1/20⟩

/-! ## Cartesian optimization controller (`CartOptCtrl`, cart_opt_ctrl.cpp)

The robot has 7 joints: the torque bounds of `updateHook` are hard-coded as a
7-entry comma initializer (line 193), so the embedding fixes `dof = 7`.  The
kinematic/dynamic model and the qpOASES solver are external collaborators:
the model quantities queried after `arm.updateModel()` and the solver outcome
enter the per-period step as inputs. -/

/-- A joint-space vector (length `dof = 7`). -/
abbrev V7 := Fin 7 → ℚ

/-- A Cartesian-space 6-vector. -/
abbrev V6 := Fin 6 → ℚ

/-- A trajectory point read from the trajectory channel:
`{GetFrame, GetTwist, GetAccTwist}`. -/
structure TrajPt where
  frame : Frame
  twist : Twist
  acc : Twist

/-- The external model's answers for the current joint state, queried after
`arm.setState` / `arm.updateModel`: end-effector pose and twist, Jacobian,
inverse inertia matrix, Coriolis and gravity torques, and `Jdot·qdot`. -/
structure ModelData where
  X_curr : Frame
  Xd_curr : Twist
  J : Matrix (Fin 6) (Fin 7) ℚ
  Minv : Matrix (Fin 7) (Fin 7) ℚ
  coriolis : V7
  gravity : V7
  jdot_qdot : V6

/-- Everything `CartOptCtrl::updateHook` reads during one period: the two
joint-feedback ports (`none` models `RTT::NoData`), the trajectory-point port,
the model answers, and the outcome of the external QP solver for the problem
passed to it this period (`some x` on `SUCCESSFUL_RETURN` with primal
solution `x`, `none` on failure). -/
structure CtrlIn where
  fp : Option V7
  fv : Option V7
  traj : Option TrajPt
  model : ModelData
  qpResult : Option V7

/-- Controller configuration: the two length-6 gain vectors. -/
structure CtrlCfg where
  P_gain : V6
  D_gain : V6

/-- Persistent controller state across periods: the `has_first_command`
member, the function-static `qpoases_initialized` flag of `updateHook`, the
desired-pose member `X_traj`, and the torque-command member. -/
structure CtrlState where
  has_first_command : Bool
  qpoases_initialized : Bool
  X_traj : Frame
  joint_torque_out : V7

/-- Which qpOASES entry point the period used: the cold-start `init` call or
the warm-started `hotstart` call. -/
inductive SolveCall where
  | init
  | hotstart
deriving DecidableEq

/-- The quadratic program handed to the solver: cost `xᵀHx + gᵀx`, box bounds
`lb ≤ x ≤ ub`, and the number of general constraints (the `SQProblem` is
created with 0 constraints and `init`/`hotstart` receive null constraint
arguments). -/
structure QPData where
  H : Matrix (Fin 7) (Fin 7) ℚ
  g : V7
  lb : V7
  ub : V7
  nConstraints : ℕ

/-- Observable effects of one controller period: the value written to the
torque-command port (`none` when nothing is written), which solver entry
point ran, the QP handed to it, the desired pose/velocity/acceleration
adopted this period, the pose error, and whether the model was refreshed. -/
structure CtrlOut where
  torqueWrite : Option V7
  solveCall : Option SolveCall
  qpPassed : Option QPData
  desired : Option (Frame × Twist × Twist)
  poseErr : Option Twist
  modelUpdated : Bool

/-- The output of a period that did nothing observable. -/
def silentOut : CtrlOut :=
  { torqueWrite := none, solveCall := none, qpPassed := none,
    desired := none, poseErr := none, modelUpdated := false }

/-- The hard-coded per-joint torque bound of `updateHook` (line 193),
in N·m. -/
def torqueMax : V7 := ![200, 200, 100, 100, 100, 30, 30]

/-- `tf::twistEigenToKDL`: a length-6 gain vector viewed as a twist
(components 0–2 linear, 3–5 angular). -/
def gainTwist (g : V6) : Twist :=
  ⟨fun i => g ⟨i.val, by omega⟩, fun i => g ⟨i.val + 3, by omega⟩⟩

/-- The product `KDL::Vector * KDL::Vector`, which the KDL library defines as
the cross product; `updateHook` applies it between the gain vectors and the
error vectors (lines 134–135). -/
def cross (a b : Vec3) : Vec3 :=
  ![a 1 * b 2 - a 2 * b 1, a 2 * b 0 - a 0 * b 2, a 0 * b 1 - a 1 * b 0]

/-- `tf::twistKDLToEigen`: a twist flattened to a 6-vector, linear part
first. -/
def twistToVec (t : Twist) : V6 :=
  fun i => if h : i.val < 3 then t.vel ⟨i.val, h⟩
    else t.rot ⟨i.val - 3, by have := i.isLt; omega⟩

/-- Lines 101–123 of `updateHook`: the desired pose, twist and
acceleration-twist for this period, and the updated `has_first_command` flag.
Desired velocity and acceleration start from zero (`KDL::SetToZero`); a fresh
trajectory point overrides all three; otherwise, on the very first period the
desired pose is the measured pose, and on later periods the previous desired
pose is held. -/
def desiredMotion (s : CtrlState) (inp : CtrlIn) : Frame × Twist × Twist × Bool :=
  match inp.traj with
  | some tp => (tp.frame, tp.twist, tp.acc, true)
  | none =>
      if s.has_first_command then (s.X_traj, zeroTwist, zeroTwist, true)
      else (inp.model.X_curr, zeroTwist, zeroTwist, true)

/-- Lines 129–138 of `updateHook`: the desired Cartesian acceleration
`Xdd_des`, combining the feedforward acceleration with the gain products of
the pose and velocity errors, independently for the linear and angular
halves. -/
def xddDes (cfg : CtrlCfg) (Xdd_traj X_err Xd_err : Twist) : Twist :=
  ⟨Xdd_traj.vel + cross (gainTwist cfg.P_gain).vel X_err.vel
      + cross (gainTwist cfg.D_gain).vel Xd_err.vel,
   Xdd_traj.rot + cross (gainTwist cfg.P_gain).rot X_err.rot
      + cross (gainTwist cfg.D_gain).rot Xd_err.rot⟩

/-- Lines 166–206 of `updateHook`: the QP built from the linearization
`a = J·Minv`, `b = -a·(coriolis + gravity) + Jdot·qdot - Xdd_des`:
`H = 2·aᵀ·a`, `g = 2·aᵀ·b` (the commented-out regularisation term is not
added), bounds `±torqueMax`, and no general constraints. -/
def buildQP (a : Matrix (Fin 6) (Fin 7) ℚ) (b : V6) : QPData :=
  { H := (2 : ℚ) • (a.transpose * a), g := (2 : ℚ) • (a.transpose.mulVec b),
    lb := -torqueMax, ub := torqueMax, nConstraints := 0 }

/-- `CartOptCtrl::updateHook` (lines 79–246).  If either joint-feedback port
has no data, the hook returns at once: no model refresh, no solve, no write.
Otherwise the model is refreshed, the desired motion and errors are computed,
the QP is built and solved — a cold `init` while the function-static
`qpoases_initialized` flag is unset (the flag is set only when that `init`
succeeds), a `hotstart` once it is set — and exactly one torque vector is
written: the primal solution minus the model's gravity torque on success, the
zero vector otherwise. -/
def updateHook (cfg : CtrlCfg) (s : CtrlState) (inp : CtrlIn) :
    CtrlState × CtrlOut :=
  match inp.fp, inp.fv with
  | some _, some _ =>
      let md := inp.model
      let dm := desiredMotion s inp
      let X_err := frameDiff md.X_curr dm.1
      let Xd_err := twistDiff md.Xd_curr dm.2.1
      let xd := xddDes cfg dm.2.2.1 X_err Xd_err
      let a := md.J * md.Minv
      let b := -(a.mulVec (md.coriolis + md.gravity)) + md.jdot_qdot
          - twistToVec xd
      let call := if s.qpoases_initialized then SolveCall.hotstart
        else SolveCall.init
      let inited := s.qpoases_initialized || inp.qpResult.isSome
      let tau : V7 :=
        match inp.qpResult with
        | some x => x - md.gravity
        | none => fun _ => 0
      ({ has_first_command := dm.2.2.2, qpoases_initialized := inited,
         X_traj := dm.1, joint_torque_out := tau },
       { torqueWrite := some tau, solveCall := some call,
         qpPassed := some (buildQP a b), desired := some (dm.1, dm.2.1, dm.2.2.1),
         poseErr := some X_err, modelUpdated := true })
  | _, _ => (s, silentOut)

/-- Lifecycle events of the controller component: `startHook` and `stopHook`
reset `has_first_command` (lines 73–77 and 249–252) and touch nothing else —
in particular not the function-static `qpoases_initialized` flag — and
`update` is one periodic tick. -/
inductive CtrlEvent where
  | start
  | stop
  | update (inp : CtrlIn)

/-- One controller transition. -/
def ctrlStep (cfg : CtrlCfg) (e : CtrlEvent) (s : CtrlState) :
    CtrlState × CtrlOut :=
  match e with
  | .start => ({ s with has_first_command := false }, silentOut)
  | .stop => ({ s with has_first_command := false }, silentOut)
  | .update inp => updateHook cfg s inp

/-! ### Concrete controller data used as test inputs -/

/-- The default controller gains (`cart_opt_ctrl.cpp` lines 39–40). -/
def ctrlCfg0 : CtrlCfg :=
  ⟨![1000, 1000, 1000, 300, 300, 300], ![50, 50, 50, 10, 10, 10]⟩

/-- A model answer with the end effector at the origin identity pose, at
rest, and with all dynamic quantities zero. -/
def model0 : ModelData := ⟨frameO, zeroTwist, 0, 0, 0, 0, 0⟩

/-- A freshly started controller state (`has_first_command = false`, solver
not yet initialized). -/
def state0 : CtrlState := ⟨false, false, frameO, 0⟩

/-- A controller state whose function-static solver flag is already set. -/
def state1 : CtrlState := ⟨false, true, frameO, 0⟩

/-- A period input with joint feedback present, no trajectory point, and a
failing QP solve. -/
def in0 : CtrlIn := ⟨some 0, some 0, none, model0, none⟩

/-- A period input with joint feedback present, no trajectory point, and a
successful QP solve returning the zero torque. -/
def inSucc : CtrlIn := ⟨some 0, some 0, none, model0, some 0⟩

/-- A period input whose joint-position port has no data. -/
def inNoPos : CtrlIn := ⟨none, some 0, none, model0, some 0⟩

/-! ## Theorems: trajectory generator claims -/

/-- Claim C2, counterexample: two waypoints at the same position but with a
large relative rotation.  The later waypoint is dropped by the filter even
though not all six components of the twist-style pose difference are below
0.01 in absolute value (the third rotational component is 4/5), refuting the
claimed six-component criterion. -/
theorem cex_C2_rotation_ignored :
    filterWaypoints [frameO, frameRotZ] = [frameO] ∧
    ¬ (|(frameDiff frameRotZ frameO).vel 0| < 1/100 ∧
       |(frameDiff frameRotZ frameO).vel 1| < 1/100 ∧
       |(frameDiff frameRotZ frameO).vel 2| < 1/100 ∧
       |(frameDiff frameRotZ frameO).rot 0| < 1/100 ∧
       |(frameDiff frameRotZ frameO).rot 1| < 1/100 ∧
       |(frameDiff frameRotZ frameO).rot 2| < 1/100) := by
  decide

/-- Claim C2 (amended): during waypoint filtering, the later of two
consecutive waypoints is dropped if and only if the three translational
components of the twist-style pose difference to its predecessor are each
below 0.01 in absolute value; the three rotational components are not
examined. -/
theorem thm_C2_translational_filter (w1 w2 : Frame) :
    filterWaypoints [w1, w2] = [w1] ↔
      (|(frameDiff w2 w1).vel 0| < 1/100 ∧ |(frameDiff w2 w1).vel 1| < 1/100 ∧
       |(frameDiff w2 w1).vel 2| < 1/100) := by
  by_cases h : |(frameDiff w2 w1).vel 0| < 1/100 ∧
      |(frameDiff w2 w1).vel 1| < 1/100 ∧ |(frameDiff w2 w1).vel 2| < 1/100
  · simp [filterWaypoints, filterAux, h]
  · simp [filterWaypoints, filterAux, h]

/-- Claim C6, counterexample: input waypoints `[O, X1, X1+0.005·x]` whose
last waypoint is filtered out (it is within tolerance of `X1`).  Two distinct
waypoints remain, the final pose of the constructed path is `X1`, but the
0.5 s stationary hold is placed at the dropped input pose `X1+0.005·x`,
which differs from the final pose of the path. -/
theorem cex_C6_hold_pose :
    computeTrajectory genCfg0 [frameO, frameX1, frameNearX1] 1 frameO =
      [Seg.motion [frameO, frameX1] 1 (trapTime genCfg0.vel_max genCfg0.acc_max 1),
       Seg.stationary (1/2) frameNearX1] ∧
    (filterWaypoints [frameO, frameX1, frameNearX1]).getLast? = some frameX1 ∧
    frameNearX1 ≠ frameX1 := by
  decide

/-- Claim C6 (amended): for every waypoint list with at least 2 waypoints
remaining after filtering, the constructed trajectory is the rounded-path
motion segment over the kept waypoints followed by a 0.5-second stationary
hold at the pose of the last input waypoint (which coincides with the final
pose of the path only when the last input waypoint survives filtering), and
the total duration equals the trapezoidal-profile motion time over the
path's length plus 0.5 s, finite and positive. -/
theorem thm_C6_duration (cfg : GenCfg) (ws : List Frame) (L : ℚ) (junk : Frame)
    (h2 : 1 < (filterWaypoints ws).length) (hvmax : 0 < cfg.vel_max)
    (hamax : 0 < cfg.acc_max) (hL : 0 ≤ L) :
    computeTrajectory cfg ws L junk =
      [Seg.motion (filterWaypoints ws) L (trapTime cfg.vel_max cfg.acc_max L),
       Seg.stationary (1/2) ((ws.getLast?).getD junk)] ∧
    trajDuration (computeTrajectory cfg ws L junk)
      = trapTime cfg.vel_max cfg.acc_max L + 1/2 ∧
    0 < trajDuration (computeTrajectory cfg ws L junk) := by
  have he : computeTrajectory cfg ws L junk =
      [Seg.motion (filterWaypoints ws) L (trapTime cfg.vel_max cfg.acc_max L),
       Seg.stationary (1/2) ((ws.getLast?).getD junk)] := by
    simp [computeTrajectory, h2]
  refine ⟨he, ?_, ?_⟩
  · rw [he]; simp [trajDuration, Seg.dur]
  · rw [he]
    have hq : 0 ≤ L / cfg.vel_max := div_nonneg hL hvmax.le
    have hr : 0 < cfg.vel_max / cfg.acc_max := div_pos hvmax hamax
    simp [trajDuration, Seg.dur, trapTime]
    linarith

/-- Claim C6, witness: the two-waypoint path from the origin to `X1` with the
default generator configuration and path length 1/2. -/
theorem wit_C6_duration :
    computeTrajectory genCfg0 [frameO, frameX1] (1/2) frameO =
      [Seg.motion (filterWaypoints [frameO, frameX1]) (1/2)
         (trapTime genCfg0.vel_max genCfg0.acc_max (1/2)),
       Seg.stationary (1/2) (([frameO, frameX1].getLast?).getD frameO)] ∧
    trajDuration (computeTrajectory genCfg0 [frameO, frameX1] (1/2) frameO)
      = trapTime genCfg0.vel_max genCfg0.acc_max (1/2) + 1/2 ∧
    0 < trajDuration (computeTrajectory genCfg0 [frameO, frameX1] (1/2) frameO) :=
  thm_C6_duration genCfg0 [frameO, frameX1] (1/2) frameO (by decide) (by decide)
    (by decide) (by decide)

/-- Claim C7, counterexample: the input `[O, O+0.005·x]` filters down to the
single waypoint `O`, but the degenerate stationary path is built at the pose
of the last input waypoint `O+0.005·x`, not at the remaining waypoint's
pose. -/
theorem cex_C7_stationary_pose :
    filterWaypoints [frameO, frameNearO] = [frameO] ∧
    computeTrajectory genCfg0 [frameO, frameNearO] 0 frameO =
      [Seg.point frameNearO 0, Seg.stationary (1/2) frameNearO] ∧
    frameNearO ≠ frameO := by
  decide

/-- Claim C7 (amended): for every waypoint list from which exactly one
waypoint remains after filtering, trajectory construction succeeds, marks the
trajectory executing, and produces a degenerate stationary path — a
zero-duration point segment followed by the 0.5 s hold — located at the pose
of the last input waypoint (within filtering tolerance of the remaining
waypoint, but not necessarily equal to it). -/
theorem thm_C7_single_waypoint (cfg : GenCfg) (ws : List Frame) (L : ℚ)
    (junk : Frame) (h1 : (filterWaypoints ws).length = 1) :
    (updateWaypointsStep cfg ws L junk).2 = true ∧
    (updateWaypointsStep cfg ws L junk).1.traj_computed = true ∧
    computeTrajectory cfg ws L junk =
      [Seg.point ((ws.getLast?).getD junk) 0,
       Seg.stationary (1/2) ((ws.getLast?).getD junk)] := by
  have hn : ¬ 1 < (filterWaypoints ws).length := by omega
  exact ⟨rfl, rfl, by simp [computeTrajectory, hn]⟩

/-- Claim C7, witness: the two near-duplicate waypoints `[O, O+0.005·x]`. -/
theorem wit_C7_single_waypoint :
    (updateWaypointsStep genCfg0 [frameO, frameNearO] 0 frameO).2 = true ∧
    (updateWaypointsStep genCfg0 [frameO, frameNearO] 0 frameO).1.traj_computed
      = true ∧
    computeTrajectory genCfg0 [frameO, frameNearO] 0 frameO =
      [Seg.point (([frameO, frameNearO].getLast?).getD frameO) 0,
       Seg.stationary (1/2) (([frameO, frameNearO].getLast?).getD frameO)] :=
  thm_C7_single_waypoint genCfg0 [frameO, frameNearO] 0 frameO (by decide)

/-- Claim C9: while a trajectory is executing (computed, cursor below the
duration), each tick emits exactly one sample, taken at the current cursor
time, and advances the cursor by exactly one period — so for a non-negative
period the cursor is non-decreasing and samples are emitted in non-decreasing
time order — and every waypoint-update (new trajectory activation) resets the
cursor to 0. -/
theorem thm_C9_time_cursor :
    (∀ (s : GenState) (period : ℚ), s.traj_computed = true →
        s.current_traj_time < trajDuration s.ctraject →
        genTick period s =
          ({ s with current_traj_time := s.current_traj_time + period },
           some s.current_traj_time) ∧
        (0 ≤ period → s.current_traj_time ≤ s.current_traj_time + period)) ∧
    (∀ (cfg : GenCfg) (wps : List Frame) (L : ℚ) (junk : Frame),
        (updateWaypointsStep cfg wps L junk).1.current_traj_time = 0) := by
  refine ⟨fun s period hc ht => ⟨?_, fun hp => by linarith⟩,
    fun cfg wps L junk => rfl⟩
  simp [genTick, hc, ht]

/-- Claim C9, witness: one tick of a 500 Hz generator executing a 0.5 s
stationary trajectory, and one waypoint update. -/
theorem wit_C9_time_cursor :
    genTick (1/500) ⟨true, 0, [Seg.stationary (1/2) frameO]⟩ =
      (⟨true, 0 + 1/500, [Seg.stationary (1/2) frameO]⟩, some 0) ∧
    ((0:ℚ) ≤ 1/500 → (0:ℚ) ≤ 0 + 1/500) ∧
    (updateWaypointsStep genCfg0 [] 0 frameO).1.current_traj_time = 0 :=
  ⟨((thm_C9_time_cursor.1 ⟨true, 0, [Seg.stationary (1/2) frameO]⟩ (1/500))
      rfl (by decide)).1,
   ((thm_C9_time_cursor.1 ⟨true, 0, [Seg.stationary (1/2) frameO]⟩ (1/500))
      rfl (by decide)).2,
   thm_C9_time_cursor.2 genCfg0 [] 0 frameO⟩

/-- Claim C10: a waypoint-update request carrying an empty waypoint list is
not rejected: filtering leaves nothing, construction takes the
single-waypoint branch at the uninitialized local frame value, reports
success, resets the cursor, and marks the trajectory executing — a
zero-duration point segment plus the 0.5 s hold at a pose determined by no
input waypoint. -/
theorem thm_C10_empty_request (cfg : GenCfg) (L : ℚ) (junk : Frame) :
    updateWaypointsStep cfg [] L junk =
      ({ traj_computed := true, current_traj_time := 0,
         ctraject := [Seg.point junk 0, Seg.stationary (1/2) junk] }, true) := by
  simp [updateWaypointsStep, computeTrajectory, filterWaypoints]

/-! ## Theorems: controller claims -/

/-- The pose difference of a frame with itself is the zero twist, provided the
frame's rotation part is orthonormal. -/
theorem frameDiff_self (F : Frame) (h : rotMul (rotT F.M) F.M = rotOne) :
    frameDiff F F = zeroTwist := by
  have hv : vex rotOne = (fun _ => 0 : Vec3) := by decide
  have h1 : (fun i => F.p i - F.p i) = (fun _ => 0 : Vec3) := by funext i; ring
  have h2 : rotMulVec F.M (fun _ => 0) = (fun _ => 0 : Vec3) := by
    funext i; simp [rotMulVec]
  unfold frameDiff rotDiff zeroTwist
  rw [h, hv, h1, h2]

/-- The quadratic form of `2·AᵀA` is twice the squared norm of `A·x`. -/
theorem quadForm_two_transpose_mul (A : Matrix (Fin 6) (Fin 7) ℚ) (x : V7) :
    Matrix.dotProduct x (((2 : ℚ) • (A.transpose * A)).mulVec x)
      = 2 * Matrix.dotProduct (A.mulVec x) (A.mulVec x) := by
  rw [Matrix.smul_mulVec_assoc, Matrix.dotProduct_smul, smul_eq_mul]
  congr 1
  rw [← Matrix.mulVec_mulVec, Matrix.dotProduct_mulVec, Matrix.vecMul_transpose]

/-- Claim C1: whenever joint feedback is available this period, exactly one
torque vector is written to the torque-command channel; it equals the QP
primal solution minus the model's gravity torque on solver success, and is
exactly the zero vector on solver failure. -/
theorem thm_C1_torque_output (cfg : CtrlCfg) (s : CtrlState) (inp : CtrlIn)
    (p v : V7) (hp : inp.fp = some p) (hv : inp.fv = some v) :
    ∃ t : V7, (updateHook cfg s inp).2.torqueWrite = some t ∧
      (∀ x : V7, inp.qpResult = some x → t = x - inp.model.gravity) ∧
      (inp.qpResult = none → t = fun _ => 0) := by
  obtain ⟨fp, fv, traj, md, qpR⟩ := inp
  subst hp; subst hv
  cases qpR with
  | none =>
      refine ⟨fun _ => 0, rfl, ?_, fun _ => rfl⟩
      intro x hx
      exact Option.noConfusion (hx : (none : Option V7) = some x)
  | some x =>
      refine ⟨x - md.gravity, rfl, ?_, ?_⟩
      · intro y hy
        have hy2 : (some x : Option V7) = some y := hy
        injection hy2 with h
        rw [h]
      · intro hn
        exact Option.noConfusion (hn : (some x : Option V7) = none)

/-- Claim C1, witness: a period with feedback present and a failing solve. -/
theorem wit_C1_torque_output :
    ∃ t : V7, (updateHook ctrlCfg0 state0 in0).2.torqueWrite = some t ∧
      (∀ x : V7, in0.qpResult = some x → t = x - in0.model.gravity) ∧
      (in0.qpResult = none → t = fun _ => 0) :=
  thm_C1_torque_output ctrlCfg0 state0 in0 0 0 rfl rfl

/-- Claim C3: whenever joint feedback is available, the QP handed to the
solver has exactly the form `a = J·Minv`,
`b = -a·(coriolis + gravity) + Jdot_qdot - desired_acceleration`,
`H = 2·aᵀ·a`, `g = 2·aᵀ·b`, with box bounds `lb = -τ_max`, `ub = τ_max` and
zero general constraints, and this `H` is symmetric positive
semi-definite. -/
theorem thm_C3_qp_form (cfg : CtrlCfg) (s : CtrlState) (inp : CtrlIn)
    (p v : V7) (hp : inp.fp = some p) (hv : inp.fv = some v) :
    ∃ qp : QPData, (updateHook cfg s inp).2.qpPassed = some qp ∧
      qp.H = (2 : ℚ) • ((inp.model.J * inp.model.Minv).transpose
          * (inp.model.J * inp.model.Minv)) ∧
      qp.g = (2 : ℚ) • ((inp.model.J * inp.model.Minv).transpose.mulVec
          (-((inp.model.J * inp.model.Minv).mulVec
              (inp.model.coriolis + inp.model.gravity))
            + inp.model.jdot_qdot
            - twistToVec (xddDes cfg (desiredMotion s inp).2.2.1
                (frameDiff inp.model.X_curr (desiredMotion s inp).1)
                (twistDiff inp.model.Xd_curr (desiredMotion s inp).2.1)))) ∧
      qp.lb = -torqueMax ∧ qp.ub = torqueMax ∧ qp.nConstraints = 0 ∧
      qp.H.transpose = qp.H ∧
      (∀ x : V7, 0 ≤ Matrix.dotProduct x (qp.H.mulVec x)) := by
  obtain ⟨fp, fv, traj, md, qpR⟩ := inp
  subst hp; subst hv
  refine ⟨_, rfl, rfl, rfl, rfl, rfl, rfl, ?_, ?_⟩
  · simp only [buildQP]
    rw [Matrix.transpose_smul, Matrix.transpose_mul, Matrix.transpose_transpose]
  · intro x
    simp only [buildQP]
    rw [quadForm_two_transpose_mul]
    have hnn : 0 ≤ Matrix.dotProduct (((md.J * md.Minv)).mulVec x)
        (((md.J * md.Minv)).mulVec x) :=
      Finset.sum_nonneg fun i _ => mul_self_nonneg _
    linarith

/-- Claim C3, witness: the QP built from the all-zero model answers. -/
theorem wit_C3_qp_form :
    ∃ qp : QPData, (updateHook ctrlCfg0 state0 in0).2.qpPassed = some qp ∧
      qp.H = (2 : ℚ) • ((in0.model.J * in0.model.Minv).transpose
          * (in0.model.J * in0.model.Minv)) ∧
      qp.g = (2 : ℚ) • ((in0.model.J * in0.model.Minv).transpose.mulVec
          (-((in0.model.J * in0.model.Minv).mulVec
              (in0.model.coriolis + in0.model.gravity))
            + in0.model.jdot_qdot
            - twistToVec (xddDes ctrlCfg0 (desiredMotion state0 in0).2.2.1
                (frameDiff in0.model.X_curr (desiredMotion state0 in0).1)
                (twistDiff in0.model.Xd_curr (desiredMotion state0 in0).2.1)))) ∧
      qp.lb = -torqueMax ∧ qp.ub = torqueMax ∧ qp.nConstraints = 0 ∧
      qp.H.transpose = qp.H ∧
      (∀ x : V7, 0 ≤ Matrix.dotProduct x (qp.H.mulVec x)) :=
  thm_C3_qp_form ctrlCfg0 state0 in0 0 0 rfl rfl

/-- Claim C4: on a period with joint feedback where no trajectory point has
ever been received (`has_first_command` still false, empty trajectory port),
the desired pose is set to the measured pose with zero desired velocity and
acceleration, and the pose error computed that period is the zero twist
(the measured rotation being orthonormal). -/
theorem thm_C4_first_period (cfg : CtrlCfg) (s : CtrlState) (inp : CtrlIn)
    (p v : V7) (hfc : s.has_first_command = false) (ht : inp.traj = none)
    (hp : inp.fp = some p) (hv : inp.fv = some v)
    (hR : rotMul (rotT inp.model.X_curr.M) inp.model.X_curr.M = rotOne) :
    (updateHook cfg s inp).2.desired
        = some (inp.model.X_curr, zeroTwist, zeroTwist) ∧
    (updateHook cfg s inp).2.poseErr = some zeroTwist ∧
    (updateHook cfg s inp).1.X_traj = inp.model.X_curr := by
  obtain ⟨fp, fv, traj, md, qpR⟩ := inp
  subst hp; subst hv; subst ht
  have hdm : desiredMotion s ⟨some p, some v, none, md, qpR⟩
      = (md.X_curr, zeroTwist, zeroTwist, true) := by
    simp [desiredMotion, hfc]
  refine ⟨?_, ?_, ?_⟩
  · simp only [updateHook, hdm]
  · simp only [updateHook, hdm]
    exact congrArg some (frameDiff_self md.X_curr hR)
  · simp only [updateHook, hdm]

/-- Claim C4, witness: a fresh state with feedback, no trajectory point, and
the identity measured pose. -/
theorem wit_C4_first_period :
    (updateHook ctrlCfg0 state0 in0).2.desired
        = some (in0.model.X_curr, zeroTwist, zeroTwist) ∧
    (updateHook ctrlCfg0 state0 in0).2.poseErr = some zeroTwist ∧
    (updateHook ctrlCfg0 state0 in0).1.X_traj = in0.model.X_curr :=
  thm_C4_first_period ctrlCfg0 state0 in0 0 0 rfl rfl rfl rfl (by decide)

/-- Claim C5: on a period in which the joint-position or joint-velocity port
carries no data, the controller writes nothing to the torque channel,
performs no model update and no QP solve, and leaves its state untouched. -/
theorem thm_C5_no_data_skip (cfg : CtrlCfg) (s : CtrlState) (inp : CtrlIn)
    (h : inp.fp = none ∨ inp.fv = none) :
    updateHook cfg s inp = (s, silentOut) := by
  obtain ⟨fp, fv, traj, md, qpR⟩ := inp
  rcases h with h | h
  · subst h; cases fv <;> rfl
  · subst h; cases fp <;> rfl

/-- Claim C5, witness: a period whose joint-position port has no data. -/
theorem wit_C5_no_data_skip :
    updateHook ctrlCfg0 state0 inNoPos = (state0, silentOut) :=
  thm_C5_no_data_skip ctrlCfg0 state0 inNoPos (Or.inl rfl)

/-- Claim C8: the function-static solver flag, once set by the first
successful cold-start `init`, is preserved by every controller event —
including failed solves and the explicit `start`/`stop` hooks (it lives for
the whole process) — and while it is set every feedback period attempts a
`hotstart`; while it is unset, a feedback period attempts a cold `init`,
setting the flag exactly when that solve succeeds. -/
theorem thm_C8_warm_start_flag (cfg : CtrlCfg) (s : CtrlState) :
    (∀ e : CtrlEvent, s.qpoases_initialized = true →
        (ctrlStep cfg e s).1.qpoases_initialized = true) ∧
    (∀ (inp : CtrlIn) (p v : V7), s.qpoases_initialized = true →
        inp.fp = some p → inp.fv = some v →
        (updateHook cfg s inp).2.solveCall = some SolveCall.hotstart) ∧
    (∀ (inp : CtrlIn) (p v x : V7), s.qpoases_initialized = false →
        inp.fp = some p → inp.fv = some v → inp.qpResult = some x →
        (updateHook cfg s inp).2.solveCall = some SolveCall.init ∧
        (updateHook cfg s inp).1.qpoases_initialized = true) ∧
    (∀ (inp : CtrlIn) (p v : V7), s.qpoases_initialized = false →
        inp.fp = some p → inp.fv = some v → inp.qpResult = none →
        (updateHook cfg s inp).2.solveCall = some SolveCall.init ∧
        (updateHook cfg s inp).1.qpoases_initialized = false) := by
  refine ⟨?_, ?_, ?_, ?_⟩
  · intro e hflag
    cases e with
    | start => exact hflag
    | stop => exact hflag
    | update inp =>
        obtain ⟨fp, fv, traj, md, qpR⟩ := inp
        cases fp with
        | none => exact hflag
        | some p =>
            cases fv with
            | none => exact hflag
            | some v => simp [ctrlStep, updateHook, hflag]
  · intro inp p v hflag hp hv
    obtain ⟨fp, fv, traj, md, qpR⟩ := inp
    subst hp; subst hv
    simp [updateHook, hflag]
  · intro inp p v x hflag hp hv hx
    obtain ⟨fp, fv, traj, md, qpR⟩ := inp
    subst hp; subst hv; subst hx
    simp [updateHook, hflag]
  · intro inp p v hflag hp hv hx
    obtain ⟨fp, fv, traj, md, qpR⟩ := inp
    subst hp; subst hv; subst hx
    simp [updateHook, hflag]

/-- Claim C8, witness: the flag survives a `stop` and drives a `hotstart`
when set; a cold `init` sets it on success and leaves it unset on failure. -/
theorem wit_C8_warm_start_flag :
    (ctrlStep ctrlCfg0 CtrlEvent.stop state1).1.qpoases_initialized = true ∧
    (updateHook ctrlCfg0 state1 in0).2.solveCall = some SolveCall.hotstart ∧
    ((updateHook ctrlCfg0 state0 inSucc).2.solveCall = some SolveCall.init ∧
     (updateHook ctrlCfg0 state0 inSucc).1.qpoases_initialized = true) ∧
    ((updateHook ctrlCfg0 state0 in0).2.solveCall = some SolveCall.init ∧
     (updateHook ctrlCfg0 state0 in0).1.qpoases_initialized = false) :=
  ⟨(thm_C8_warm_start_flag ctrlCfg0 state1).1 CtrlEvent.stop rfl,
   (thm_C8_warm_start_flag ctrlCfg0 state1).2.1 in0 0 0 rfl rfl rfl,
   (thm_C8_warm_start_flag ctrlCfg0 state0).2.2.1 inSucc 0 0 0 rfl rfl rfl rfl,
   (thm_C8_warm_start_flag ctrlCfg0 state0).2.2.2 in0 0 0 rfl rfl rfl rfl⟩
